import Mathlib

/-!
Verification of the chaser-oxide launch/discovery/profile core.

Shallow embedding of:
- `src/browser/argument.rs` (`ArgsBuilder`, `Arg`)
- `src/browser/config.rs` (`BrowserConfig::launch` argument pipeline, `DEFAULT_ARGS`)
- `src/browser/mod.rs` (`ws_url_from_output`, `Browser::launch` cleanup, `Browser::set_cookies`)
- `src/profiles.rs` (`Gpu`, `Os`, `ChaserProfile` and its builder)

Byte streams are `List Nat`, strings in the scanner are `List Char`, machine
integers are `Nat`/`Int` (no overflow is relevant to these claims).
-/

/-! ## Character-list utilities (mirroring `str` operations used by the source) -/

/-- Whitespace test used by `trim`; covers the ASCII whitespace characters
(the source uses Rust `char::is_whitespace`; the URLs scanned are ASCII). -/
def isWhite (c : Char) : Bool :=
  c = ' ' || c = '\t' || c = '\n' || c = '\r' || c.toNat = 11 || c.toNat = 12

/-- Rust `str::trim`: drop leading and trailing whitespace. -/
def trimChars (s : List Char) : List Char :=
  ((s.dropWhile isWhite).reverse.dropWhile isWhite).reverse

/-- Rust `str::contains` for a literal pattern: some position of `s` starts with `pat`. -/
def containsSub (pat : List Char) : List Char → Bool
  | [] => pat.isEmpty
  | c :: rest => pat.isPrefixOf (c :: rest) || containsSub pat rest

/-- Rust `str::rsplit_once(pat)`: split around the last occurrence of `pat`,
returning (part before, part after). -/
def rsplitOnce (pat : List Char) : List Char → Option (List Char × List Char)
  | [] => if pat.isEmpty then some ([], []) else none
  | c :: rest =>
    match rsplitOnce pat rest with
    | some (b, a) => some (c :: b, a)
    | none =>
      if pat.isPrefixOf (c :: rest) then some ([], (c :: rest).drop pat.length) else none

/-- Rust `str::starts_with` / `str::contains` lifted to `String`. -/
def strContains (s pat : String) : Bool := containsSub pat.data s.data

/-! ## UTF-8 validation (`std::str::from_utf8` on the newly read bytes) -/

/-- Strict UTF-8 decoder: rejects continuation-byte leads, overlong encodings,
surrogates and code points above `0x10FFFF`, exactly as `str::from_utf8` does. -/
def utf8Decode : List Nat → Option (List Char)
  | [] => some []
  | b0 :: rest =>
    if b0 < 0x80 then
      (utf8Decode rest).map (fun cs => Char.ofNat b0 :: cs)
    else if b0 < 0xC2 then none
    else if b0 < 0xE0 then
      match rest with
      | b1 :: rest1 =>
        if 0x80 ≤ b1 && b1 < 0xC0 then
          (utf8Decode rest1).map (fun cs => Char.ofNat ((b0 - 0xC0) * 0x40 + (b1 - 0x80)) :: cs)
        else none
      | [] => none
    else if b0 < 0xF0 then
      match rest with
      | b1 :: b2 :: rest2 =>
        if (0x80 ≤ b1 && b1 < 0xC0) && (0x80 ≤ b2 && b2 < 0xC0) then
          let cp := (b0 - 0xE0) * 0x1000 + (b1 - 0x80) * 0x40 + (b2 - 0x80)
          if cp < 0x800 then none
          else if 0xD800 ≤ cp && cp < 0xE000 then none
          else (utf8Decode rest2).map (fun cs => Char.ofNat cp :: cs)
        else none
      | _ => none
    else if b0 < 0xF5 then
      match rest with
      | b1 :: b2 :: b3 :: rest3 =>
        if ((0x80 ≤ b1 && b1 < 0xC0) && (0x80 ≤ b2 && b2 < 0xC0)) && (0x80 ≤ b3 && b3 < 0xC0) then
          let cp := (b0 - 0xF0) * 0x40000 + (b1 - 0x80) * 0x1000 + (b2 - 0x80) * 0x40 + (b3 - 0x80)
          if cp < 0x10000 then none
          else if 0x110000 ≤ cp then none
          else (utf8Decode rest3).map (fun cs => Char.ofNat cp :: cs)
        else none
      | _ => none
    else none

/-- Encode an ASCII string as its byte list (test-input helper). -/
def asciiBytes (s : String) : List Nat := s.data.map Char.toNat

/-! ## Endpoint discovery (`ws_url_from_output` in `src/browser/mod.rs`) -/

/-- Error kinds of the `std::io::Error` values constructed or observed
by `ws_url_from_output`. -/
inductive IoErrorKind where
  | unexpectedEof
  | invalidData
  | osError (code : Nat)
  deriving DecidableEq, Repr

/-- The launch-relevant variants of `CdpError`; each carries the diagnostic
(stderr) bytes captured so far, as in `src/error.rs`'s `BrowserStderr`. -/
inductive CdpError where
  | launchTimeout (stderr : List Nat)
  | launchExit (status : Int) (stderr : List Nat)
  | launchIo (kind : IoErrorKind) (stderr : List Nat)
  deriving DecidableEq, Repr

deriving instance DecidableEq for Except

/-- One completion of the three-way `select!` race in `ws_url_from_output`:
the timeout future, the child's exit future, or a `read_until` on stderr
(the payload is the chunk of bytes appended, empty on end-of-stream). -/
inductive StreamEvent where
  | timeout
  | exitStatus (res : Except IoErrorKind Int)
  | readLine (res : Except IoErrorKind (List Nat))
  deriving DecidableEq, Repr

/-- Pattern `"listening on "` scanned for by `ws_url_from_output`. -/
def listeningPat : List Char := "listening on ".data

/-- Per-line scan of `ws_url_from_output` (mod.rs lines 574-578):
`rsplit_once("listening on ")`, then the remainder must start with `"ws"`
and contain `"devtools/browser"`; on match the trimmed remainder is the URL. -/
def scanLine (line : List Char) : Option (List Char) :=
  match rsplitOnce listeningPat line with
  | some (_, ws) =>
    if "ws".data.isPrefixOf ws && containsSub "devtools/browser".data ws then
      some (trimChars ws)
    else none
  | none => none

/-- The `loop`/`select!` body of `ws_url_from_output`, driven by the schedule of
race completions. `none` means the schedule ended without a terminal outcome
(the real loop would keep waiting). The second argument is `stderr_bytes`. -/
def wsUrlFromOutput : List StreamEvent → List Nat → Option (Except CdpError (List Char))
  | [], _ => none
  | .timeout :: _, cap => some (.error (.launchTimeout cap))
  | .exitStatus (.error e) :: _, cap => some (.error (.launchIo e cap))
  | .exitStatus (.ok st) :: _, cap => some (.error (.launchExit st cap))
  | .readLine (.error e) :: _, cap => some (.error (.launchIo e cap))
  | .readLine (.ok chunk) :: rest, cap =>
    if chunk.length = 0 then some (.error (.launchIo .unexpectedEof cap))
    else
      match utf8Decode chunk with
      | none => some (.error (.launchIo .invalidData (cap ++ chunk)))
      | some line =>
        match scanLine line with
        | some ws => some (.ok ws)
        | none => wsUrlFromOutput rest (cap ++ chunk)

/-- Boolean test: a read chunk that makes the loop continue (non-empty, valid
UTF-8, and its line does not announce the devtools URL). -/
def chunkContinuesB (ch : List Nat) : Bool :=
  !ch.isEmpty &&
    match utf8Decode ch with
    | some l => (scanLine l).isNone
    | none => false

/-! ## Argument merger (`src/browser/argument.rs`) -/

/-- An `Arg`: a flag key together with its ordered value list. -/
structure Arg where
  key : String
  values : List String
  deriving DecidableEq, Repr

/-- The `ArgsBuilder`'s `HashMap<String, Vec<String>>`, modelled as an
association list with unique keys (insertion order stands in for the map's
arbitrary iteration order; the claims only concern per-key content). -/
abbrev ArgsBuilder := List (String × List String)

/-- Method `ArgsBuilder::arg`: extend the value list of an existing key, or
insert a new entry. -/
def addArg : ArgsBuilder → Arg → ArgsBuilder
  | [], a => [(a.key, a.values)]
  | (k, vs) :: rest, a =>
    if k = a.key then (k, vs ++ a.values) :: rest else (k, vs) :: addArg rest a

/-- Method `ArgsBuilder::args`: fold `arg` over a sequence. -/
def addArgs : ArgsBuilder → List Arg → ArgsBuilder
  | b, [] => b
  | b, a :: rest => addArgs (addArg b a) rest

/-- Method `ArgsBuilder::has`: existence check by key. -/
def hasKey (b : ArgsBuilder) (k : String) : Bool := b.any (fun p => decide (p.1 = k))

/-- Value list recorded for a key, if present. -/
def getVals : ArgsBuilder → String → Option (List String)
  | [], _ => none
  | (k, vs) :: rest, key => if k = key then some vs else getVals rest key

/-- Number of entries carried for a key. -/
def countKey (b : ArgsBuilder) (k : String) : Nat :=
  (b.filter (fun p => decide (p.1 = k))).length

/-- Method `ArgsBuilder::into_iter`: render one entry as a command-line token. -/
def renderArg (p : String × List String) : String :=
  if p.2.isEmpty then "--" ++ p.1 else "--" ++ p.1 ++ "=" ++ String.intercalate "," p.2

/-- Rendered command line (`builder.into_iter().collect()`). -/
def renderArgs (b : ArgsBuilder) : List String := b.map renderArg

/-! ## Launch configuration (`src/browser/config.rs`) -/

/-- The `HeadlessMode` enum (`False` = headful, `True` = legacy headless,
`New` = new headless). -/
inductive HeadlessMode where
  | headfulFalse
  | legacyTrue
  | newMode
  deriving DecidableEq, Repr

/-- The argument-affecting fields of `BrowserConfig` (executable path,
environment, timeouts and viewport play no role in the argument pipeline
and are omitted). -/
structure BrowserConfig where
  headless : HeadlessMode
  sandbox : Bool
  windowSize : Option (Nat × Nat)
  port : Nat
  extensions : List String
  userDataDir : Option String
  incognito : Bool
  hidden : Bool
  disableHttpsFirst : Bool
  args : List Arg
  disableDefaultArgs : Bool
  deriving DecidableEq, Repr

/-- The static `DEFAULT_ARGS` table (24 entries, config.rs lines 457-485). -/
def defaultArgs : List Arg := [
  ⟨"disable-background-networking", []⟩,
  ⟨"enable-features", ["NetworkService", "NetworkServiceInProcess"]⟩,
  ⟨"disable-background-timer-throttling", []⟩,
  ⟨"disable-backgrounding-occluded-windows", []⟩,
  ⟨"disable-breakpad", []⟩,
  ⟨"disable-client-side-phishing-detection", []⟩,
  ⟨"disable-component-extensions-with-background-pages", []⟩,
  ⟨"disable-default-apps", []⟩,
  ⟨"disable-dev-shm-usage", []⟩,
  ⟨"disable-features", ["TranslateUI"]⟩,
  ⟨"disable-hang-monitor", []⟩,
  ⟨"disable-ipc-flooding-protection", []⟩,
  ⟨"disable-popup-blocking", []⟩,
  ⟨"disable-prompt-on-repost", []⟩,
  ⟨"disable-renderer-backgrounding", []⟩,
  ⟨"disable-sync", []⟩,
  ⟨"force-color-profile", ["srgb"]⟩,
  ⟨"metrics-recording-only", []⟩,
  ⟨"no-first-run", []⟩,
  ⟨"enable-automation", []⟩,
  ⟨"password-store", ["basic"]⟩,
  ⟨"use-mock-keychain", []⟩,
  ⟨"enable-blink-features", ["IdleDetection"]⟩,
  ⟨"lang", ["en_US"]⟩]

/-- Phase 1 of `BrowserConfig::launch`: defaults (unless disabled), then the
caller-supplied args (config.rs lines 370-374). -/
def mergePhase (c : BrowserConfig) : ArgsBuilder :=
  if c.disableDefaultArgs then addArgs [] c.args
  else addArgs (addArgs [] defaultArgs) c.args

/-- Phase 2: inject `remote-debugging-port` only when the key is absent. -/
def portPhase (c : BrowserConfig) (b : ArgsBuilder) : ArgsBuilder :=
  if hasKey b "remote-debugging-port" then b
  else addArg b ⟨"remote-debugging-port", [toString c.port]⟩

/-- Phase 3: `disable-extensions` when none configured, else one
`load-extension` contribution per extension. -/
def extensionsPhase (c : BrowserConfig) (b : ArgsBuilder) : ArgsBuilder :=
  if c.extensions.isEmpty then addArg b ⟨"disable-extensions", []⟩
  else addArgs b (c.extensions.map (fun e => ⟨"load-extension", [e]⟩))

/-- Phase 4: `user-data-dir`, appended unconditionally — the configured
directory or the process-temp-scoped default (`temp_dir` is a parameter). -/
def userDataDirPhase (tempDir : String) (c : BrowserConfig) (b : ArgsBuilder) : ArgsBuilder :=
  match c.userDataDir with
  | some d => addArg b ⟨"user-data-dir", [d]⟩
  | none => addArg b ⟨"user-data-dir", [tempDir ++ "/chromiumoxide-runner"]⟩

/-- Phase 5: optional `window-size`. -/
def windowSizePhase (c : BrowserConfig) (b : ArgsBuilder) : ArgsBuilder :=
  match c.windowSize with
  | some (w, h) => addArg b ⟨"window-size", [toString w, toString h]⟩
  | none => b

/-- Phase 6: sandbox-disabling flags. -/
def sandboxPhase (c : BrowserConfig) (b : ArgsBuilder) : ArgsBuilder :=
  if c.sandbox then b
  else addArgs b [⟨"no-sandbox", []⟩, ⟨"disable-setuid-sandbox", []⟩]

/-- Phase 7: headless-mode flags. -/
def headlessPhase (c : BrowserConfig) (b : ArgsBuilder) : ArgsBuilder :=
  match c.headless with
  | .headfulFalse => b
  | .legacyTrue =>
    addArgs b [⟨"headless", []⟩, ⟨"hide-scrollbars", []⟩, ⟨"mute-audio", []⟩]
  | .newMode =>
    addArgs b [⟨"headless", ["new"]⟩, ⟨"hide-scrollbars", []⟩, ⟨"mute-audio", []⟩]

/-- Phase 8: `incognito`. -/
def incognitoPhase (c : BrowserConfig) (b : ArgsBuilder) : ArgsBuilder :=
  if c.incognito then addArg b ⟨"incognito", []⟩ else b

/-- Phase 9: automation hiding. -/
def hiddenPhase (c : BrowserConfig) (b : ArgsBuilder) : ArgsBuilder :=
  if c.hidden then addArg b ⟨"disable-blink-features", ["AutomationControlled"]⟩ else b

/-- Phase 10: HTTPS-first disabling. -/
def httpsFirstPhase (c : BrowserConfig) (b : ArgsBuilder) : ArgsBuilder :=
  if c.disableHttpsFirst then
    addArg b ⟨"disable-features", ["HttpsUpgrades", "HttpsFirstBalancedModeAutoEnable"]⟩
  else b

/-- The complete argument pipeline of `BrowserConfig::launch`
(config.rs lines 367-446), before rendering. -/
def launchArgsBuilder (tempDir : String) (c : BrowserConfig) : ArgsBuilder :=
  httpsFirstPhase c (hiddenPhase c (incognitoPhase c (headlessPhase c
    (sandboxPhase c (windowSizePhase c (userDataDirPhase tempDir c
      (extensionsPhase c (portPhase c (mergePhase c)))))))))

/-- Rendered command line produced by `BrowserConfig::launch`. -/
def launchCmdLine (tempDir : String) (c : BrowserConfig) : List String :=
  renderArgs (launchArgsBuilder tempDir c)

/-! ## Launch cleanup (`Browser::launch`, mod.rs lines 185-198) -/

/-- State of the spawned child process: still running, exited but not yet
reaped (a zombie), or exited and reaped. -/
inductive ProcState where
  | running
  | zombie (status : Int)
  | reaped (status : Int)
  deriving DecidableEq, Repr

/-- Modelled from the spec: `Child::try_wait` of the `async_process` wrapper
(not under `src/`) — "if the process already exited, nothing further is done";
a finished process is collected without blocking, a running one reports
nothing. Returns the observed status (if any) and the updated process. -/
def tryWaitProc : ProcState → Option Int × ProcState
  | .running => (none, .running)
  | .zombie st => (some st, .reaped st)
  | .reaped st => (some st, .reaped st)

/-- Modelled from the spec: `Child::kill` (not under `src/`) — the process "is
forcibly killed"; a live process terminates with the kill status `ks`, a dead
one is unchanged. -/
def killProc (ks : Int) : ProcState → ProcState
  | .running => .zombie ks
  | .zombie st => .zombie st
  | .reaped st => .reaped st

/-- Modelled from the spec: `Child::wait` (not under `src/`) — the exited
process is "waited on synchronously", i.e. reaped. It is only invoked after
`kill`, so the running case (where the real call would block) is inert. -/
def waitProc : ProcState → ProcState
  | .running => .running
  | .zombie st => .reaped st
  | .reaped st => .reaped st

/-- The clean-up block of `Browser::launch` (mod.rs lines 188-195): if
`try_wait` observes an exit, nothing further; otherwise `kill` then `wait`. -/
def cleanupChild (ks : Int) (c : ProcState) : ProcState :=
  match tryWaitProc c with
  | (some _, c2) => c2
  | (none, c2) => waitProc (killProc ks c2)

/-- Tail of `Browser::launch` (mod.rs lines 185-198): on a successful
`with_child` the child is kept as-is; on error the child is cleaned up and the
same error is returned. -/
def launchFinish (ks : Int) (res : Except CdpError Unit) (c : ProcState) :
    Except (CdpError × ProcState) ProcState :=
  match res with
  | .ok _ => .ok c
  | .error e => .error (e, cleanupChild ks c)

/-- Test for a fully reaped (neither runnable nor zombie) process. -/
def isReaped : ProcState → Bool
  | .reaped _ => true
  | _ => false

/-! ## Cookie setting (`Browser::set_cookies`, mod.rs lines 499-508) -/

/-- The URL-relevant part of a `CookieParam`; name/value stand in for the
remaining payload fields, which `set_cookies` never inspects. -/
structure CookieParam where
  name : String
  value : String
  url : Option String
  deriving DecidableEq, Repr

/-- A command dispatched to the browser over the protocol handler. -/
inductive BrowserCommand where
  | setCookiesCmd (cookies : List CookieParam)
  deriving DecidableEq, Repr

/-- The validation loop of `Browser::set_cookies`: validate the URL of every
cookie that carries one, propagating the first error. The validator itself
(`crate::page::validate_cookie_url`, not under `src/`) is a parameter:
modelled from the spec as an arbitrary "URL well-formedness" check. -/
def validateCookies {E : Type} (validate : String → Except E Unit) :
    List CookieParam → Except E Unit
  | [] => .ok ()
  | c :: rest =>
    match c.url with
    | some u =>
      match validate u with
      | .error e => .error e
      | .ok _ => validateCookies validate rest
    | none => validateCookies validate rest

/-- Method `Browser::set_cookies`: validate all cookies first, then dispatch a
single set-cookies command; the returned list is exactly what was dispatched
(an error dispatches nothing). -/
def setCookies {E : Type} (validate : String → Except E Unit)
    (cookies : List CookieParam) : Except E (List BrowserCommand) :=
  match validateCookies validate cookies with
  | .error e => .error e
  | .ok _ => .ok [.setCookiesCmd cookies]

/-! ## Fingerprint profiles (`src/profiles.rs`) -/

/-- GPU presets for WebGL spoofing. -/
inductive Gpu where
  | NvidiaRTX3080
  | NvidiaRTX4080
  | NvidiaGTX1660
  | IntelUHD630
  | IntelIrisXe
  | AppleM1Pro
  | AppleM2Max
  | AppleM4Max
  | AmdRadeonRX6800
  deriving DecidableEq, Repr

/-- Method `Gpu::vendor`: the WebGL vendor string. -/
def Gpu.vendor : Gpu → String
  | .NvidiaRTX3080 | .NvidiaRTX4080 | .NvidiaGTX1660 => "Google Inc. (NVIDIA)"
  | .IntelUHD630 | .IntelIrisXe => "Google Inc. (Intel)"
  | .AppleM1Pro | .AppleM2Max | .AppleM4Max => "Google Inc. (Apple)"
  | .AmdRadeonRX6800 => "Google Inc. (AMD)"

/-- Method `Gpu::renderer`: the WebGL renderer string. -/
def Gpu.renderer : Gpu → String
  | .NvidiaRTX3080 => "ANGLE (NVIDIA, NVIDIA GeForce RTX 3080 Direct3D11 vs_5_0 ps_5_0)"
  | .NvidiaRTX4080 => "ANGLE (NVIDIA, NVIDIA GeForce RTX 4080 Direct3D11 vs_5_0 ps_5_0)"
  | .NvidiaGTX1660 => "ANGLE (NVIDIA, NVIDIA GeForce GTX 1660 SUPER Direct3D11 vs_5_0 ps_5_0)"
  | .IntelUHD630 => "ANGLE (Intel, Intel(R) UHD Graphics 630 Direct3D11 vs_5_0 ps_5_0)"
  | .IntelIrisXe => "ANGLE (Intel, Intel(R) Iris(R) Xe Graphics Direct3D11 vs_5_0 ps_5_0)"
  | .AppleM1Pro => "ANGLE (Apple, Apple M1 Pro, OpenGL 4.1)"
  | .AppleM2Max => "ANGLE (Apple, Apple M2 Max, OpenGL 4.1)"
  | .AppleM4Max => "ANGLE (Apple, ANGLE Metal Renderer: Apple M4 Max, Unspecified Version)"
  | .AmdRadeonRX6800 => "ANGLE (AMD, AMD Radeon RX 6800 XT Direct3D11 vs_5_0 ps_5_0)"

/-- Operating system presets. -/
inductive Os where
  | Windows
  | MacOSIntel
  | MacOSArm
  | Linux
  deriving DecidableEq, Repr

/-- Method `Os::platform`: the `navigator.platform` value. -/
def Os.platform : Os → String
  | .Windows => "Win32"
  | .MacOSIntel | .MacOSArm => "MacIntel"
  | .Linux => "Linux x86_64"

/-- Method `Os::hints_platform`: the client-hints platform value. -/
def Os.hints_platform : Os → String
  | .Windows => "Windows"
  | .MacOSIntel | .MacOSArm => "macOS"
  | .Linux => "Linux"

/-- The frozen `ChaserProfile` value. -/
structure ChaserProfile where
  os : Os
  chrome_version : Nat
  gpu : Gpu
  memory_gb : Nat
  cpu_cores : Nat
  locale : String
  timezone : String
  screen_width : Nat
  screen_height : Nat
  deriving DecidableEq, Repr

/-- The `ChaserProfileBuilder` state. -/
structure ChaserProfileBuilder where
  os : Os
  chrome_version : Nat
  gpu : Gpu
  memory_gb : Nat
  cpu_cores : Nat
  locale : String
  timezone : String
  screen_width : Nat
  screen_height : Nat
  deriving DecidableEq, Repr

/-- Associated function `ChaserProfile::new`: builder seeded from an OS preset
(profiles.rs lines 156-173). -/
def ChaserProfile.newBuilder (os : Os) : ChaserProfileBuilder where
  os := os
  chrome_version := 129
  gpu :=
    match os with
    | .Windows => .NvidiaRTX3080
    | .MacOSIntel => .AppleM1Pro
    | .MacOSArm => .AppleM4Max
    | .Linux => .NvidiaGTX1660
  memory_gb := 8
  cpu_cores := 8
  locale := "en-US"
  timezone := "America/New_York"
  screen_width := 1920
  screen_height := 1080

/-- Builder setter `chrome_version`. -/
def ChaserProfileBuilder.withChromeVersion (b : ChaserProfileBuilder) (v : Nat) :
    ChaserProfileBuilder := { b with chrome_version := v }

/-- Builder setter `gpu`. -/
def ChaserProfileBuilder.withGpu (b : ChaserProfileBuilder) (g : Gpu) :
    ChaserProfileBuilder := { b with gpu := g }

/-- Builder setter `memory_gb`. -/
def ChaserProfileBuilder.withMemoryGb (b : ChaserProfileBuilder) (gb : Nat) :
    ChaserProfileBuilder := { b with memory_gb := gb }

/-- Builder setter `cpu_cores`. -/
def ChaserProfileBuilder.withCpuCores (b : ChaserProfileBuilder) (n : Nat) :
    ChaserProfileBuilder := { b with cpu_cores := n }

/-- Builder setter `locale`. -/
def ChaserProfileBuilder.withLocale (b : ChaserProfileBuilder) (l : String) :
    ChaserProfileBuilder := { b with locale := l }

/-- Builder setter `timezone`. -/
def ChaserProfileBuilder.withTimezone (b : ChaserProfileBuilder) (tz : String) :
    ChaserProfileBuilder := { b with timezone := tz }

/-- Builder setter `screen`. -/
def ChaserProfileBuilder.withScreen (b : ChaserProfileBuilder) (w h : Nat) :
    ChaserProfileBuilder := { b with screen_width := w, screen_height := h }

/-- Method `ChaserProfileBuilder::build`. -/
def ChaserProfileBuilder.build (b : ChaserProfileBuilder) : ChaserProfile where
  os := b.os
  chrome_version := b.chrome_version
  gpu := b.gpu
  memory_gb := b.memory_gb
  cpu_cores := b.cpu_cores
  locale := b.locale
  timezone := b.timezone
  screen_width := b.screen_width
  screen_height := b.screen_height

/-- Preset `ChaserProfile::windows`. -/
def ChaserProfile.windowsBuilder : ChaserProfileBuilder := ChaserProfile.newBuilder .Windows

/-- Preset `ChaserProfile::macos_intel`. -/
def ChaserProfile.macosIntelBuilder : ChaserProfileBuilder :=
  (ChaserProfile.newBuilder .MacOSIntel).withGpu .AppleM1Pro

/-- Preset `ChaserProfile::macos_arm`. -/
def ChaserProfile.macosArmBuilder : ChaserProfileBuilder :=
  (ChaserProfile.newBuilder .MacOSArm).withGpu .AppleM4Max

/-- Preset `ChaserProfile::linux`. -/
def ChaserProfile.linuxBuilder : ChaserProfileBuilder := ChaserProfile.newBuilder .Linux

/-- Method `ChaserProfile::user_agent` (profiles.rs lines 225-235). -/
def ChaserProfile.user_agent (p : ChaserProfile) : String :=
  let osPart :=
    match p.os with
    | .Windows => "Windows NT 10.0; Win64; x64"
    | .MacOSIntel | .MacOSArm => "Macintosh; Intel Mac OS X 10_15_7"
    | .Linux => "X11; Linux x86_64"
  "Mozilla/5.0 (" ++ osPart ++ ") AppleWebKit/537.36 (KHTML, like Gecko) Chrome/" ++
    toString p.chrome_version ++ ".0.0.0 Safari/537.36"

/-! ## Concrete inputs used by the closed test theorems -/

/-- A headful config with `disable_https_first` set and a caller-supplied
`disable-features` override (collides with the same key in `DEFAULT_ARGS`). -/
def cfgHttpsOverride : BrowserConfig where
  headless := .headfulFalse
  sandbox := true
  windowSize := none
  port := 0
  extensions := []
  userDataDir := some "/data"
  incognito := false
  hidden := false
  disableHttpsFirst := true
  args := [⟨"disable-features", ["Foo"]⟩]
  disableDefaultArgs := false

/-- A config whose caller args override the default `lang` flag. -/
def cfgLangOverride : BrowserConfig where
  headless := .legacyTrue
  sandbox := true
  windowSize := none
  port := 9222
  extensions := []
  userDataDir := some "/data"
  incognito := false
  hidden := false
  disableHttpsFirst := false
  args := [⟨"lang", ["fr_FR"]⟩]
  disableDefaultArgs := false

/-- A config with extensions configured and a caller-supplied
`disable-extensions`/`load-extension` pair of args. -/
def cfgExtensionClash : BrowserConfig where
  headless := .headfulFalse
  sandbox := true
  windowSize := none
  port := 0
  extensions := ["ext1"]
  userDataDir := some "/data"
  incognito := false
  hidden := false
  disableHttpsFirst := false
  args := [⟨"disable-extensions", []⟩, ⟨"load-extension", ["mine"]⟩]
  disableDefaultArgs := false

/-- A config with two extensions and no caller args. -/
def cfgTwoExtensions : BrowserConfig where
  headless := .headfulFalse
  sandbox := true
  windowSize := none
  port := 0
  extensions := ["extA", "extB"]
  userDataDir := none
  incognito := false
  hidden := false
  disableHttpsFirst := false
  args := []
  disableDefaultArgs := false

/-- A config whose caller args already carry a `user-data-dir` entry while no
`user_data_dir` field is configured. -/
def cfgUserDataOverride : BrowserConfig where
  headless := .legacyTrue
  sandbox := true
  windowSize := none
  port := 0
  extensions := []
  userDataDir := none
  incognito := false
  hidden := false
  disableHttpsFirst := false
  args := [⟨"user-data-dir", ["/custom"]⟩]
  disableDefaultArgs := false

/-- A sample URL validator (stands in for an arbitrary well-formedness check;
`Nat` is its error type). -/
def validateStub : String → Except Nat Unit :=
  fun u => if u = "not-a-url" then .error 7 else .ok ()

/-- A cookie list whose second cookie carries a URL rejected by
`validateStub`. -/
def cookiesStub : List CookieParam :=
  [⟨"good", "1", some "https://ok.example"⟩, ⟨"bad", "2", some "not-a-url"⟩,
   ⟨"nourl", "3", none⟩]

/-- The diagnostic line announcing the devtools WebSocket endpoint. -/
def devtoolsChunk : List Nat :=
  asciiBytes "DevTools listening on ws://127.0.0.1:9222/devtools/browser/abc\n"

/-- A line containing the announcement pattern whose value is not a WebSocket
URL (the loop must continue on it). -/
def httpChunk : List Nat :=
  asciiBytes "DevTools listening on http://127.0.0.1:9222/devtools/browser/abc\n"

/-- An unrelated diagnostic line. -/
def junkChunk : List Nat := asciiBytes "mesa warning: something\n"

/-! ## Lemmas about the argument merger -/

/-- Keys present in a builder. -/
def keysOf (b : ArgsBuilder) : List String := b.map Prod.fst

/-- Values contributed for key `k` by a sequence of args, in contribution order. -/
def valsOf (l : List Arg) (k : String) : List String :=
  ((l.filter fun a => decide (a.key = k)).map Arg.values).flatten

theorem valsOf_nil (k : String) : valsOf [] k = [] := rfl

theorem valsOf_cons (a : Arg) (l : List Arg) (k : String) :
    valsOf (a :: l) k = if a.key = k then a.values ++ valsOf l k else valsOf l k := by
  by_cases h : a.key = k <;> simp [valsOf, h]

theorem valsOf_eq_nil_of_not_any (l : List Arg) (k : String)
    (h : l.any (fun a => decide (a.key = k)) = false) : valsOf l k = [] := by
  induction l with
  | nil => rfl
  | cons a rest ih =>
    simp only [List.any_cons, Bool.or_eq_false_iff] at h
    rw [valsOf_cons, if_neg (by simpa using h.1), ih h.2]

theorem getVals_addArg (b : ArgsBuilder) (a : Arg) (k : String) :
    getVals (addArg b a) k =
      if a.key = k then some ((getVals b k).getD [] ++ a.values) else getVals b k := by
  induction b with
  | nil => by_cases hk : a.key = k <;> simp [addArg, getVals, hk]
  | cons p rest ih =>
    obtain ⟨k0, vs⟩ := p
    by_cases h0 : k0 = a.key
    · by_cases hk : a.key = k
      · have hkk : k0 = k := h0.trans hk
        simp [addArg, getVals, h0, hk, hkk]
      · have hk0 : ¬(k0 = k) := fun h2 => hk (h0.symm.trans h2)
        simp [addArg, getVals, h0, hk, hk0]
    · by_cases hk : a.key = k
      · have hk0 : ¬(k0 = k) := fun h2 => h0 (h2.trans hk.symm)
        simp [addArg, getVals, h0, hk, hk0, ih]
      · simp [addArg, getVals, h0, hk, ih]

theorem getVals_addArg_ne (b : ArgsBuilder) (a : Arg) (k : String) (h : a.key ≠ k) :
    getVals (addArg b a) k = getVals b k := by
  simp [getVals_addArg, h]

theorem getVals_addArgs (b : ArgsBuilder) (l : List Arg) (k : String) :
    getVals (addArgs b l) k =
      if l.any (fun a => decide (a.key = k)) then
        some ((getVals b k).getD [] ++ valsOf l k)
      else getVals b k := by
  induction l generalizing b with
  | nil => simp [addArgs, valsOf]
  | cons a rest ih =>
    show getVals (addArgs (addArg b a) rest) k = _
    rw [ih (addArg b a)]
    by_cases h : a.key = k
    · rw [getVals_addArg]
      by_cases hr : rest.any (fun a => decide (a.key = k)) = true
      · simp [h, hr, valsOf_cons, List.append_assoc]
      · simp only [Bool.not_eq_true] at hr
        simp [h, hr, valsOf_cons, valsOf_eq_nil_of_not_any rest k hr]
    · rw [getVals_addArg_ne b a k h]
      simp [h, valsOf_cons]

theorem getVals_addArgs_of_not_any (b : ArgsBuilder) (l : List Arg) (k : String)
    (h : l.any (fun a => decide (a.key = k)) = false) :
    getVals (addArgs b l) k = getVals b k := by
  simp [getVals_addArgs, h]

theorem hasKey_eq_isSome (b : ArgsBuilder) (k : String) :
    hasKey b k = (getVals b k).isSome := by
  induction b with
  | nil => rfl
  | cons p rest ih =>
    obtain ⟨k0, vs⟩ := p
    by_cases h : k0 = k
    · simp [hasKey, getVals, h]
    · simp only [hasKey, getVals, List.any_cons, h, decide_eq_false, Bool.false_or, if_neg h]
      simpa [hasKey] using ih

theorem mem_keysOf_of_getVals (b : ArgsBuilder) (k : String) (v : List String)
    (h : getVals b k = some v) : k ∈ keysOf b := by
  induction b with
  | nil => simp [getVals] at h
  | cons p rest ih =>
    obtain ⟨k0, vs⟩ := p
    simp only [keysOf, List.map_cons, List.mem_cons]
    by_cases h0 : k0 = k
    · exact Or.inl h0.symm
    · right
      simp only [getVals, if_neg h0] at h
      exact ih h

theorem keysOf_nil : keysOf [] = [] := rfl

theorem keysOf_cons (p : String × List String) (b : ArgsBuilder) :
    keysOf (p :: b) = p.1 :: keysOf b := rfl

theorem hasKey_iff_mem (b : ArgsBuilder) (k : String) :
    hasKey b k = true ↔ k ∈ keysOf b := by
  induction b with
  | nil => simp [hasKey, keysOf]
  | cons p rest ih =>
    obtain ⟨k0, vs⟩ := p
    by_cases h0 : k0 = k
    · subst h0
      simp [hasKey, keysOf_cons]
    · have h0s : ¬(k = k0) := fun h2 => h0 h2.symm
      simp only [keysOf_cons, List.mem_cons, h0s, false_or]
      rw [show hasKey ((k0, vs) :: rest) k = hasKey rest k from by simp [hasKey, h0]]
      exact ih

theorem keysOf_addArg (b : ArgsBuilder) (a : Arg) :
    keysOf (addArg b a) = if hasKey b a.key then keysOf b else keysOf b ++ [a.key] := by
  induction b with
  | nil => simp [addArg, keysOf, hasKey]
  | cons p rest ih =>
    obtain ⟨k0, vs⟩ := p
    by_cases h0 : k0 = a.key
    · simp [addArg, keysOf_cons, hasKey, h0]
    · have hcons : hasKey ((k0, vs) :: rest) a.key = hasKey rest a.key := by
        simp [hasKey, h0]
      rw [show addArg ((k0, vs) :: rest) a = (k0, vs) :: addArg rest a from by
        simp [addArg, h0]]
      rw [hcons, keysOf_cons, ih, keysOf_cons]
      by_cases hr : hasKey rest a.key
      · rw [if_pos hr, if_pos hr]
      · rw [if_neg hr, if_neg hr]
        rfl

theorem nodup_keysOf_addArg (b : ArgsBuilder) (a : Arg) (h : (keysOf b).Nodup) :
    (keysOf (addArg b a)).Nodup := by
  rw [keysOf_addArg]
  by_cases hb : hasKey b a.key
  · simpa [hb] using h
  · have hnotmem : a.key ∉ keysOf b := fun hm => hb ((hasKey_iff_mem b a.key).2 hm)
    rw [if_neg hb]
    refine (List.nodup_append).2 ⟨h, List.nodup_singleton _, ?_⟩
    intro x hx hx2
    simp only [List.mem_singleton] at hx2
    exact hnotmem (hx2 ▸ hx)

theorem nodup_keysOf_addArgs (b : ArgsBuilder) (l : List Arg) (h : (keysOf b).Nodup) :
    (keysOf (addArgs b l)).Nodup := by
  induction l generalizing b with
  | nil => exact h
  | cons a rest ih => exact ih (addArg b a) (nodup_keysOf_addArg b a h)

theorem countKey_eq_zero_of_not_mem (b : ArgsBuilder) (k : String)
    (h : k ∉ keysOf b) : countKey b k = 0 := by
  simp only [countKey, List.length_eq_zero]
  rw [List.filter_eq_nil_iff]
  intro p hp hk
  simp only [decide_eq_true_eq] at hk
  exact h ((List.mem_map).2 ⟨p, hp, hk⟩)

theorem countKey_eq_one (b : ArgsBuilder) (k : String) (hn : (keysOf b).Nodup)
    (v : List String) (h : getVals b k = some v) : countKey b k = 1 := by
  induction b with
  | nil => simp [getVals] at h
  | cons p rest ih =>
    obtain ⟨k0, vs⟩ := p
    rw [keysOf_cons, List.nodup_cons] at hn
    by_cases h0 : k0 = k
    · subst h0
      have hz : countKey rest k0 = 0 := countKey_eq_zero_of_not_mem rest k0 hn.1
      show (List.filter (fun p => decide (p.1 = k0)) ((k0, vs) :: rest)).length = 1
      rw [List.filter_cons, if_pos (by simp), List.length_cons,
        show (List.filter (fun p => decide (p.1 = k0)) rest).length = 0 from hz]
    · simp only [getVals, if_neg h0] at h
      have h1 := ih hn.2 h
      show (List.filter (fun p => decide (p.1 = k)) ((k0, vs) :: rest)).length = 1
      rw [List.filter_cons, if_neg (by simp [h0])]
      exact h1

/-! ## Per-phase lemmas about `launchArgsBuilder` -/

theorem getVals_portPhase (c : BrowserConfig) (b : ArgsBuilder) (k : String)
    (h : k ≠ "remote-debugging-port") :
    getVals (portPhase c b) k = getVals b k := by
  unfold portPhase
  by_cases hb : hasKey b "remote-debugging-port"
  · rw [if_pos hb]
  · rw [if_neg hb,
      getVals_addArg_ne _ ⟨"remote-debugging-port", [toString c.port]⟩ _ (Ne.symm h)]

theorem getVals_extensionsPhase (c : BrowserConfig) (b : ArgsBuilder) (k : String)
    (h1 : k ≠ "disable-extensions") (h2 : k ≠ "load-extension") :
    getVals (extensionsPhase c b) k = getVals b k := by
  unfold extensionsPhase
  by_cases he : c.extensions.isEmpty
  · rw [if_pos he, getVals_addArg_ne _ ⟨"disable-extensions", []⟩ _ (Ne.symm h1)]
  · rw [if_neg he, getVals_addArgs_of_not_any]
    have h2s : ("load-extension" : String) ≠ k := Ne.symm h2
    simp [List.any_map, Function.comp, h2s]

theorem getVals_userDataDirPhase (t : String) (c : BrowserConfig) (b : ArgsBuilder) (k : String)
    (h : k ≠ "user-data-dir") :
    getVals (userDataDirPhase t c b) k = getVals b k := by
  unfold userDataDirPhase
  cases c.userDataDir with
  | none =>
    rw [getVals_addArg_ne _ ⟨"user-data-dir", [t ++ "/chromiumoxide-runner"]⟩ _ (Ne.symm h)]
  | some d => rw [getVals_addArg_ne _ ⟨"user-data-dir", [d]⟩ _ (Ne.symm h)]

theorem getVals_windowSizePhase (c : BrowserConfig) (b : ArgsBuilder) (k : String)
    (h : k ≠ "window-size") :
    getVals (windowSizePhase c b) k = getVals b k := by
  unfold windowSizePhase
  cases c.windowSize with
  | none => rfl
  | some wh =>
    obtain ⟨w, hgt⟩ := wh
    rw [getVals_addArg_ne _ ⟨"window-size", [toString w, toString hgt]⟩ _ (Ne.symm h)]

theorem getVals_sandboxPhase (c : BrowserConfig) (b : ArgsBuilder) (k : String)
    (h1 : k ≠ "no-sandbox") (h2 : k ≠ "disable-setuid-sandbox") :
    getVals (sandboxPhase c b) k = getVals b k := by
  unfold sandboxPhase
  by_cases hs : c.sandbox
  · rw [if_pos hs]
  · rw [if_neg hs]
    show getVals (addArg (addArg b ⟨"no-sandbox", []⟩) ⟨"disable-setuid-sandbox", []⟩) k =
      getVals b k
    rw [getVals_addArg_ne _ ⟨"disable-setuid-sandbox", []⟩ _ (Ne.symm h2),
      getVals_addArg_ne _ ⟨"no-sandbox", []⟩ _ (Ne.symm h1)]

theorem getVals_headlessPhase (c : BrowserConfig) (b : ArgsBuilder) (k : String)
    (h1 : k ≠ "headless") (h2 : k ≠ "hide-scrollbars") (h3 : k ≠ "mute-audio") :
    getVals (headlessPhase c b) k = getVals b k := by
  unfold headlessPhase
  cases c.headless with
  | headfulFalse => rfl
  | legacyTrue =>
    show getVals (addArg (addArg (addArg b ⟨"headless", []⟩) ⟨"hide-scrollbars", []⟩)
      ⟨"mute-audio", []⟩) k = getVals b k
    rw [getVals_addArg_ne _ ⟨"mute-audio", []⟩ _ (Ne.symm h3),
      getVals_addArg_ne _ ⟨"hide-scrollbars", []⟩ _ (Ne.symm h2),
      getVals_addArg_ne _ ⟨"headless", []⟩ _ (Ne.symm h1)]
  | newMode =>
    show getVals (addArg (addArg (addArg b ⟨"headless", ["new"]⟩) ⟨"hide-scrollbars", []⟩)
      ⟨"mute-audio", []⟩) k = getVals b k
    rw [getVals_addArg_ne _ ⟨"mute-audio", []⟩ _ (Ne.symm h3),
      getVals_addArg_ne _ ⟨"hide-scrollbars", []⟩ _ (Ne.symm h2),
      getVals_addArg_ne _ ⟨"headless", ["new"]⟩ _ (Ne.symm h1)]

theorem getVals_incognitoPhase (c : BrowserConfig) (b : ArgsBuilder) (k : String)
    (h : k ≠ "incognito") :
    getVals (incognitoPhase c b) k = getVals b k := by
  unfold incognitoPhase
  by_cases hi : c.incognito
  · rw [if_pos hi, getVals_addArg_ne _ ⟨"incognito", []⟩ _ (Ne.symm h)]
  · rw [if_neg hi]

theorem getVals_hiddenPhase (c : BrowserConfig) (b : ArgsBuilder) (k : String)
    (h : k ≠ "disable-blink-features") :
    getVals (hiddenPhase c b) k = getVals b k := by
  unfold hiddenPhase
  by_cases hh : c.hidden
  · rw [if_pos hh,
      getVals_addArg_ne _ ⟨"disable-blink-features", ["AutomationControlled"]⟩ _ (Ne.symm h)]
  · rw [if_neg hh]

theorem getVals_httpsFirstPhase (c : BrowserConfig) (b : ArgsBuilder) (k : String) :
    getVals (httpsFirstPhase c b) k =
      if c.disableHttpsFirst ∧ k = "disable-features" then
        some ((getVals b k).getD [] ++ ["HttpsUpgrades", "HttpsFirstBalancedModeAutoEnable"])
      else getVals b k := by
  unfold httpsFirstPhase
  by_cases hc : c.disableHttpsFirst
  · rw [if_pos hc, getVals_addArg]
    by_cases hk : k = "disable-features"
    · rw [if_pos (show ((⟨"disable-features",
        ["HttpsUpgrades", "HttpsFirstBalancedModeAutoEnable"]⟩ : Arg).key = k) from hk.symm ▸ rfl),
        if_pos ⟨hc, hk⟩]
    · rw [if_neg (fun hx => hk ((rfl : ("disable-features" : String) = _) ▸ hx.symm)),
        if_neg (fun hx => hk hx.2)]
  · rw [if_neg hc, if_neg (fun hx => hc hx.1)]

/-! ## Merge-phase lemmas -/

theorem caller_any_and_vals (l : List Arg) (k : String) (cv : List String)
    (hc : getVals (addArgs [] l) k = some cv) :
    l.any (fun a => decide (a.key = k)) = true ∧ valsOf l k = cv := by
  rw [getVals_addArgs] at hc
  by_cases ha : l.any (fun a => decide (a.key = k))
  · rw [if_pos ha] at hc
    simp only [getVals, Option.getD_none, List.nil_append, Option.some.injEq] at hc
    exact ⟨ha, hc⟩
  · rw [if_neg ha] at hc
    simp [getVals] at hc

theorem caller_none_any (l : List Arg) (k : String)
    (hc : getVals (addArgs [] l) k = none) :
    l.any (fun a => decide (a.key = k)) = false := by
  rw [getVals_addArgs] at hc
  by_cases ha : l.any (fun a => decide (a.key = k))
  · rw [if_pos ha] at hc
    simp at hc
  · simpa using ha

theorem getVals_mergePhase_both (c : BrowserConfig) (k : String) (dv cv : List String)
    (hdefaults : c.disableDefaultArgs = false)
    (hd : getVals (addArgs [] defaultArgs) k = some dv)
    (hc : getVals (addArgs [] c.args) k = some cv) :
    getVals (mergePhase c) k = some (dv ++ cv) := by
  obtain ⟨hany, hvals⟩ := caller_any_and_vals c.args k cv hc
  unfold mergePhase
  rw [hdefaults, if_neg (by simp), getVals_addArgs, if_pos hany, hd, hvals]
  rfl

theorem getVals_mergePhase_none (c : BrowserConfig) (k : String)
    (hdk : getVals (addArgs [] defaultArgs) k = none)
    (hck : getVals (addArgs [] c.args) k = none) :
    getVals (mergePhase c) k = none := by
  have hca := caller_none_any c.args k hck
  unfold mergePhase
  by_cases hdef : c.disableDefaultArgs = true
  · rw [if_pos hdef]
    exact hck
  · rw [if_neg hdef, getVals_addArgs_of_not_any _ _ _ hca]
    exact hdk

theorem getVals_mergePhase_caller_only (c : BrowserConfig) (k : String) (cv : List String)
    (hdk : getVals (addArgs [] defaultArgs) k = none)
    (hck : getVals (addArgs [] c.args) k = some cv) :
    getVals (mergePhase c) k = some cv := by
  obtain ⟨hany, hvals⟩ := caller_any_and_vals c.args k cv hck
  unfold mergePhase
  by_cases hdef : c.disableDefaultArgs = true
  · rw [if_pos hdef]
    exact hck
  · rw [if_neg hdef, getVals_addArgs, if_pos hany, hdk, hvals]
    rfl

theorem keysOf_defaults :
    keysOf (addArgs [] defaultArgs) = ["disable-background-networking", "enable-features",
      "disable-background-timer-throttling", "disable-backgrounding-occluded-windows",
      "disable-breakpad", "disable-client-side-phishing-detection",
      "disable-component-extensions-with-background-pages", "disable-default-apps",
      "disable-dev-shm-usage", "disable-features", "disable-hang-monitor",
      "disable-ipc-flooding-protection", "disable-popup-blocking", "disable-prompt-on-repost",
      "disable-renderer-backgrounding", "disable-sync", "force-color-profile",
      "metrics-recording-only", "no-first-run", "enable-automation", "password-store",
      "use-mock-keychain", "enable-blink-features", "lang"] := by
  rfl

theorem nodup_mergePhase (c : BrowserConfig) : (keysOf (mergePhase c)).Nodup := by
  unfold mergePhase
  by_cases hdef : c.disableDefaultArgs = true
  · rw [if_pos hdef]
    exact nodup_keysOf_addArgs _ _ List.nodup_nil
  · rw [if_neg hdef]
    exact nodup_keysOf_addArgs _ _ (nodup_keysOf_addArgs _ _ List.nodup_nil)

theorem nodup_portPhase (c : BrowserConfig) (b : ArgsBuilder) (h : (keysOf b).Nodup) :
    (keysOf (portPhase c b)).Nodup := by
  unfold portPhase
  by_cases hb : hasKey b "remote-debugging-port"
  · rwa [if_pos hb]
  · rw [if_neg hb]
    exact nodup_keysOf_addArg _ _ h

theorem nodup_extensionsPhase (c : BrowserConfig) (b : ArgsBuilder) (h : (keysOf b).Nodup) :
    (keysOf (extensionsPhase c b)).Nodup := by
  unfold extensionsPhase
  by_cases he : c.extensions.isEmpty
  · rw [if_pos he]
    exact nodup_keysOf_addArg _ _ h
  · rw [if_neg he]
    exact nodup_keysOf_addArgs _ _ h

theorem nodup_userDataDirPhase (t : String) (c : BrowserConfig) (b : ArgsBuilder)
    (h : (keysOf b).Nodup) : (keysOf (userDataDirPhase t c b)).Nodup := by
  unfold userDataDirPhase
  cases c.userDataDir with
  | none => exact nodup_keysOf_addArg _ _ h
  | some d => exact nodup_keysOf_addArg _ _ h

theorem nodup_windowSizePhase (c : BrowserConfig) (b : ArgsBuilder) (h : (keysOf b).Nodup) :
    (keysOf (windowSizePhase c b)).Nodup := by
  unfold windowSizePhase
  cases c.windowSize with
  | none => exact h
  | some wh =>
    obtain ⟨w, hgt⟩ := wh
    exact nodup_keysOf_addArg _ _ h

theorem nodup_sandboxPhase (c : BrowserConfig) (b : ArgsBuilder) (h : (keysOf b).Nodup) :
    (keysOf (sandboxPhase c b)).Nodup := by
  unfold sandboxPhase
  by_cases hs : c.sandbox
  · rwa [if_pos hs]
  · rw [if_neg hs]
    exact nodup_keysOf_addArgs _ _ h

theorem nodup_headlessPhase (c : BrowserConfig) (b : ArgsBuilder) (h : (keysOf b).Nodup) :
    (keysOf (headlessPhase c b)).Nodup := by
  unfold headlessPhase
  cases c.headless with
  | headfulFalse => exact h
  | legacyTrue => exact nodup_keysOf_addArgs _ _ h
  | newMode => exact nodup_keysOf_addArgs _ _ h

theorem nodup_incognitoPhase (c : BrowserConfig) (b : ArgsBuilder) (h : (keysOf b).Nodup) :
    (keysOf (incognitoPhase c b)).Nodup := by
  unfold incognitoPhase
  by_cases hi : c.incognito
  · rw [if_pos hi]
    exact nodup_keysOf_addArg _ _ h
  · rwa [if_neg hi]

theorem nodup_hiddenPhase (c : BrowserConfig) (b : ArgsBuilder) (h : (keysOf b).Nodup) :
    (keysOf (hiddenPhase c b)).Nodup := by
  unfold hiddenPhase
  by_cases hh : c.hidden
  · rw [if_pos hh]
    exact nodup_keysOf_addArg _ _ h
  · rwa [if_neg hh]

theorem nodup_httpsFirstPhase (c : BrowserConfig) (b : ArgsBuilder) (h : (keysOf b).Nodup) :
    (keysOf (httpsFirstPhase c b)).Nodup := by
  unfold httpsFirstPhase
  by_cases hc : c.disableHttpsFirst
  · rw [if_pos hc]
    exact nodup_keysOf_addArg _ _ h
  · rwa [if_neg hc]

theorem nodup_keysOf_launchArgsBuilder (t : String) (c : BrowserConfig) :
    (keysOf (launchArgsBuilder t c)).Nodup :=
  nodup_httpsFirstPhase _ _ (nodup_hiddenPhase _ _ (nodup_incognitoPhase _ _
    (nodup_headlessPhase _ _ (nodup_sandboxPhase _ _ (nodup_windowSizePhase _ _
      (nodup_userDataDirPhase _ _ _ (nodup_extensionsPhase _ _ (nodup_portPhase _ _
        (nodup_mergePhase c)))))))))

theorem getVals_launch_of_defaultKey (t : String) (c : BrowserConfig) (k : String)
    (v : List String)
    (hmem : k ∈ keysOf (addArgs [] defaultArgs))
    (hm : getVals (mergePhase c) k = some v) :
    getVals (launchArgsBuilder t c) k =
      if c.disableHttpsFirst ∧ k = "disable-features" then
        some (v ++ ["HttpsUpgrades", "HttpsFirstBalancedModeAutoEnable"])
      else some v := by
  have hmem2 := keysOf_defaults ▸ hmem
  have hrdp : k ≠ "remote-debugging-port" := ne_of_mem_of_not_mem hmem2 (by decide)
  have hde : k ≠ "disable-extensions" := ne_of_mem_of_not_mem hmem2 (by decide)
  have hle : k ≠ "load-extension" := ne_of_mem_of_not_mem hmem2 (by decide)
  have hudd : k ≠ "user-data-dir" := ne_of_mem_of_not_mem hmem2 (by decide)
  have hws : k ≠ "window-size" := ne_of_mem_of_not_mem hmem2 (by decide)
  have hns : k ≠ "no-sandbox" := ne_of_mem_of_not_mem hmem2 (by decide)
  have hss : k ≠ "disable-setuid-sandbox" := ne_of_mem_of_not_mem hmem2 (by decide)
  have hhl : k ≠ "headless" := ne_of_mem_of_not_mem hmem2 (by decide)
  have hhs : k ≠ "hide-scrollbars" := ne_of_mem_of_not_mem hmem2 (by decide)
  have hma : k ≠ "mute-audio" := ne_of_mem_of_not_mem hmem2 (by decide)
  have hin : k ≠ "incognito" := ne_of_mem_of_not_mem hmem2 (by decide)
  have hbf : k ≠ "disable-blink-features" := ne_of_mem_of_not_mem hmem2 (by decide)
  have hch : getVals (hiddenPhase c (incognitoPhase c (headlessPhase c (sandboxPhase c
      (windowSizePhase c (userDataDirPhase t c (extensionsPhase c (portPhase c
        (mergePhase c))))))))) k = some v := by
    rw [getVals_hiddenPhase _ _ _ hbf, getVals_incognitoPhase _ _ _ hin,
      getVals_headlessPhase _ _ _ hhl hhs hma, getVals_sandboxPhase _ _ _ hns hss,
      getVals_windowSizePhase _ _ _ hws, getVals_userDataDirPhase _ _ _ _ hudd,
      getVals_extensionsPhase _ _ _ hde hle, getVals_portPhase _ _ _ hrdp]
    exact hm
  show getVals (httpsFirstPhase c _) k = _
  rw [getVals_httpsFirstPhase, hch]
  by_cases hx : c.disableHttpsFirst = true ∧ k = "disable-features"
  · rw [if_pos hx, if_pos hx]
    rfl
  · rw [if_neg hx, if_neg hx]

/-! ## Claim C2 -/

/-- C2 counterexample: for `cfgHttpsOverride` the key `disable-features` occurs
in both the default argument set (value `TranslateUI`) and the caller args
(value `Foo`), yet the finalized value list is not the default values followed
by the caller's values — the launch phase for `disable_https_first` appends two
further values after them, so the claim as stated fails on this config. -/
theorem c2_counterexample :
    getVals (addArgs [] defaultArgs) "disable-features" = some ["TranslateUI"] ∧
    getVals (addArgs [] cfgHttpsOverride.args) "disable-features" = some ["Foo"] ∧
    getVals (launchArgsBuilder "/tmp" cfgHttpsOverride) "disable-features" ≠
      some (["TranslateUI"] ++ ["Foo"]) ∧
    getVals (launchArgsBuilder "/tmp" cfgHttpsOverride) "disable-features" =
      some ["TranslateUI", "Foo", "HttpsUpgrades", "HttpsFirstBalancedModeAutoEnable"] := by
  decide

/-- C2 (amended): when defaults are enabled, for every flag key occurring both
in the default argument set and in the caller-supplied arguments the finalized
command line carries exactly one entry for that key, whose value list is the
default values followed by the caller's values in contribution order, followed
(only for `disable-features` when `disable_https_first` is set) by the
HTTPS-first feature values the launch phase appends; the caller's entry never
replaces the default's values. -/
theorem c2_default_override_appends (t : String) (c : BrowserConfig) (k : String)
    (dv cv : List String)
    (hdefaults : c.disableDefaultArgs = false)
    (hd : getVals (addArgs [] defaultArgs) k = some dv)
    (hc : getVals (addArgs [] c.args) k = some cv) :
    countKey (launchArgsBuilder t c) k = 1 ∧
    getVals (launchArgsBuilder t c) k =
      some ((dv ++ cv) ++
        (if c.disableHttpsFirst ∧ k = "disable-features" then
          ["HttpsUpgrades", "HttpsFirstBalancedModeAutoEnable"] else [])) := by
  have hm := getVals_mergePhase_both c k dv cv hdefaults hd hc
  have hmem := mem_keysOf_of_getVals _ _ _ hd
  have hL := getVals_launch_of_defaultKey t c k (dv ++ cv) hmem hm
  constructor
  · obtain ⟨w, hw⟩ : ∃ w, getVals (launchArgsBuilder t c) k = some w := by
      rw [hL]
      by_cases hx : c.disableHttpsFirst = true ∧ k = "disable-features"
      · rw [if_pos hx]
        exact ⟨_, rfl⟩
      · rw [if_neg hx]
        exact ⟨_, rfl⟩
    exact countKey_eq_one _ _ (nodup_keysOf_launchArgsBuilder t c) w hw
  · rw [hL]
    by_cases hx : c.disableHttpsFirst = true ∧ k = "disable-features"
    · rw [if_pos hx, if_pos hx]
    · rw [if_neg hx, if_neg hx, List.append_nil]

/-- C2 witness: the amended theorem applied to `cfgLangOverride`, whose caller
args override the default `lang` flag; the finalized entry is unique and its
values are `en_US` (default) then `fr_FR` (caller). -/
theorem c2_witness :
    countKey (launchArgsBuilder "/tmp" cfgLangOverride) "lang" = 1 ∧
    getVals (launchArgsBuilder "/tmp" cfgLangOverride) "lang" =
      some ((["en_US"] ++ ["fr_FR"]) ++
        (if cfgLangOverride.disableHttpsFirst ∧ ("lang" : String) = "disable-features" then
          ["HttpsUpgrades", "HttpsFirstBalancedModeAutoEnable"] else [])) :=
  c2_default_override_appends "/tmp" cfgLangOverride "lang" ["en_US"] ["fr_FR"]
    (by decide) (by decide) (by decide)

/-! ## Claim C4 -/

theorem getVals_launch_eq_afterExt (t : String) (c : BrowserConfig) (k : String)
    (hudd : k ≠ "user-data-dir") (hws : k ≠ "window-size") (hns : k ≠ "no-sandbox")
    (hss : k ≠ "disable-setuid-sandbox") (hhl : k ≠ "headless") (hhs : k ≠ "hide-scrollbars")
    (hma : k ≠ "mute-audio") (hin : k ≠ "incognito") (hbf : k ≠ "disable-blink-features")
    (hdf : k ≠ "disable-features") :
    getVals (launchArgsBuilder t c) k =
      getVals (extensionsPhase c (portPhase c (mergePhase c))) k := by
  unfold launchArgsBuilder
  rw [getVals_httpsFirstPhase, if_neg (fun hx => hdf hx.2),
    getVals_hiddenPhase _ _ _ hbf, getVals_incognitoPhase _ _ _ hin,
    getVals_headlessPhase _ _ _ hhl hhs hma, getVals_sandboxPhase _ _ _ hns hss,
    getVals_windowSizePhase _ _ _ hws, getVals_userDataDirPhase _ _ _ _ hudd]

theorem valsOf_loadExtension (exts : List String) :
    valsOf (exts.map fun e => (⟨"load-extension", [e]⟩ : Arg)) "load-extension" = exts := by
  induction exts with
  | nil => rfl
  | cons e rest ih =>
    rw [List.map_cons, valsOf_cons, if_pos rfl, ih]
    rfl

theorem getVals_extensionsPhase_le (c : BrowserConfig) (b : ArgsBuilder)
    (hne : c.extensions ≠ [])
    (hb : getVals b "load-extension" = none) :
    getVals (extensionsPhase c b) "load-extension" = some c.extensions := by
  unfold extensionsPhase
  rw [if_neg (by simpa using hne), getVals_addArgs, if_pos ?hany, hb,
    valsOf_loadExtension]
  · rfl
  case hany =>
    cases hx : c.extensions with
    | nil => exact absurd hx hne
    | cons e rest => simp [hx]

/-- C4 counterexample: `cfgExtensionClash` has a non-empty extensions list, yet
its rendered arguments do contain a `disable-extensions` flag (the caller
supplied one, and the launch phase never removes entries), and its
`load-extension` entry carries a caller value ahead of the configured
extension, so the claim as stated fails on this config. -/
theorem c4_counterexample :
    cfgExtensionClash.extensions ≠ [] ∧
    hasKey (launchArgsBuilder "/tmp" cfgExtensionClash) "disable-extensions" = true ∧
    getVals (launchArgsBuilder "/tmp" cfgExtensionClash) "load-extension" ≠
      some cfgExtensionClash.extensions ∧
    getVals (launchArgsBuilder "/tmp" cfgExtensionClash) "load-extension" =
      some ["mine", "ext1"] := by
  decide

/-- C4 (amended): for every LaunchConfig with an empty extensions list the
rendered argument set contains a disable-extensions flag; for every
LaunchConfig with a non-empty extensions list whose caller-supplied args carry
neither a disable-extensions nor a load-extension entry, the rendered
load-extension flag lists exactly one value per configured extension in order,
and no disable-extensions flag is present. -/
theorem c4_extensions_flags (t : String) (c : BrowserConfig) :
    (c.extensions = [] → hasKey (launchArgsBuilder t c) "disable-extensions" = true) ∧
    (c.extensions ≠ [] →
      (∀ a ∈ c.args, a.key ≠ "disable-extensions" ∧ a.key ≠ "load-extension") →
      getVals (launchArgsBuilder t c) "load-extension" = some c.extensions ∧
      hasKey (launchArgsBuilder t c) "disable-extensions" = false) := by
  constructor
  · intro hext
    have h1 : getVals (extensionsPhase c (portPhase c (mergePhase c))) "disable-extensions" =
        some ((getVals (portPhase c (mergePhase c)) "disable-extensions").getD [] ++ []) := by
      unfold extensionsPhase
      rw [if_pos (by simp [hext]), getVals_addArg, if_pos rfl]
    rw [hasKey_eq_isSome, getVals_launch_eq_afterExt t c _ (by decide) (by decide) (by decide)
      (by decide) (by decide) (by decide) (by decide) (by decide) (by decide) (by decide), h1]
    rfl
  · intro hext hargs
    have hanyDE : c.args.any (fun a => decide (a.key = "disable-extensions")) = false := by
      rw [List.any_eq_false]
      intro a ha
      simpa using (hargs a ha).1
    have hanyLE : c.args.any (fun a => decide (a.key = "load-extension")) = false := by
      rw [List.any_eq_false]
      intro a ha
      simpa using (hargs a ha).2
    have hcallerDE : getVals (addArgs [] c.args) "disable-extensions" = none := by
      rw [getVals_addArgs_of_not_any _ _ _ hanyDE]
      rfl
    have hcallerLE : getVals (addArgs [] c.args) "load-extension" = none := by
      rw [getVals_addArgs_of_not_any _ _ _ hanyLE]
      rfl
    have hmergeDE := getVals_mergePhase_none c "disable-extensions" (by decide) hcallerDE
    have hmergeLE := getVals_mergePhase_none c "load-extension" (by decide) hcallerLE
    have hportDE : getVals (portPhase c (mergePhase c)) "disable-extensions" = none := by
      rw [getVals_portPhase _ _ _ (by decide)]
      exact hmergeDE
    have hportLE : getVals (portPhase c (mergePhase c)) "load-extension" = none := by
      rw [getVals_portPhase _ _ _ (by decide)]
      exact hmergeLE
    have hextLE := getVals_extensionsPhase_le c (portPhase c (mergePhase c)) hext hportLE
    have hextDE : getVals (extensionsPhase c (portPhase c (mergePhase c)))
        "disable-extensions" = none := by
      unfold extensionsPhase
      rw [if_neg (by simpa using hext), getVals_addArgs_of_not_any]
      · exact hportDE
      · rw [List.any_eq_false]
        intro a ha
        rw [List.mem_map] at ha
        obtain ⟨e, he2, rfl⟩ := ha
        simp
    constructor
    · rw [getVals_launch_eq_afterExt t c _ (by decide) (by decide) (by decide) (by decide)
        (by decide) (by decide) (by decide) (by decide) (by decide) (by decide)]
      exact hextLE
    · rw [hasKey_eq_isSome, getVals_launch_eq_afterExt t c _ (by decide) (by decide) (by decide)
        (by decide) (by decide) (by decide) (by decide) (by decide) (by decide) (by decide),
        hextDE]
      rfl

/-- C4 witness: the amended theorem applied to `cfgTwoExtensions` (two
extensions, no caller args): both load-extension values appear in order and no
disable-extensions flag is rendered. -/
theorem c4_witness :
    getVals (launchArgsBuilder "/tmp" cfgTwoExtensions) "load-extension" =
      some cfgTwoExtensions.extensions ∧
    hasKey (launchArgsBuilder "/tmp" cfgTwoExtensions) "disable-extensions" = false :=
  (c4_extensions_flags "/tmp" cfgTwoExtensions).2 (by decide) (by decide)

/-! ## Claim C10 -/

theorem getVals_launch_eq_afterUdd (t : String) (c : BrowserConfig) (k : String)
    (hws : k ≠ "window-size") (hns : k ≠ "no-sandbox") (hss : k ≠ "disable-setuid-sandbox")
    (hhl : k ≠ "headless") (hhs : k ≠ "hide-scrollbars") (hma : k ≠ "mute-audio")
    (hin : k ≠ "incognito") (hbf : k ≠ "disable-blink-features")
    (hdf : k ≠ "disable-features") :
    getVals (launchArgsBuilder t c) k =
      getVals (userDataDirPhase t c (extensionsPhase c (portPhase c (mergePhase c)))) k := by
  unfold launchArgsBuilder
  rw [getVals_httpsFirstPhase, if_neg (fun hx => hdf hx.2), getVals_hiddenPhase _ _ _ hbf,
    getVals_incognitoPhase _ _ _ hin, getVals_headlessPhase _ _ _ hhl hhs hma,
    getVals_sandboxPhase _ _ _ hns hss, getVals_windowSizePhase _ _ _ hws]

/-- C10: `user-data-dir` is appended unconditionally, so when the caller args
already carry that key the finalized command line has a single user-data-dir
entry whose values are the caller's values followed by the configured (or
temp-dir default) directory; by contrast `remote-debugging-port` is injected
only when absent — a pre-existing entry is passed through unchanged. -/
theorem c10_user_data_dir_appended (t : String) (c : BrowserConfig) (cv : List String)
    (hc : getVals (addArgs [] c.args) "user-data-dir" = some cv) :
    countKey (launchArgsBuilder t c) "user-data-dir" = 1 ∧
    getVals (launchArgsBuilder t c) "user-data-dir" =
      some (cv ++ [(match c.userDataDir with
        | some d => d
        | none => t ++ "/chromiumoxide-runner")]) ∧
    (∀ pv, getVals (mergePhase c) "remote-debugging-port" = some pv →
      getVals (launchArgsBuilder t c) "remote-debugging-port" = some pv) := by
  have hmerge : getVals (mergePhase c) "user-data-dir" = some cv :=
    getVals_mergePhase_caller_only c _ cv (by decide) hc
  have hport : getVals (portPhase c (mergePhase c)) "user-data-dir" = some cv := by
    rw [getVals_portPhase _ _ _ (by decide)]
    exact hmerge
  have hext : getVals (extensionsPhase c (portPhase c (mergePhase c))) "user-data-dir" =
      some cv := by
    rw [getVals_extensionsPhase _ _ _ (by decide) (by decide)]
    exact hport
  have hudd : getVals (userDataDirPhase t c (extensionsPhase c (portPhase c (mergePhase c))))
      "user-data-dir" =
      some (cv ++ [(match c.userDataDir with
        | some d => d
        | none => t ++ "/chromiumoxide-runner")]) := by
    unfold userDataDirPhase
    cases hcase : c.userDataDir with
    | some d =>
      rw [getVals_addArg, if_pos rfl, hext]
      rfl
    | none =>
      rw [getVals_addArg, if_pos rfl, hext]
      rfl
  have hafter := getVals_launch_eq_afterUdd t c "user-data-dir" (by decide) (by decide)
    (by decide) (by decide) (by decide) (by decide) (by decide) (by decide) (by decide)
  refine ⟨?_, ?_, ?_⟩
  · exact countKey_eq_one _ _ (nodup_keysOf_launchArgsBuilder t c) _ (hafter.trans hudd)
  · exact hafter.trans hudd
  · intro pv hpv
    have hport2 : getVals (portPhase c (mergePhase c)) "remote-debugging-port" = some pv := by
      unfold portPhase
      rw [if_pos (by rw [hasKey_eq_isSome, hpv]; rfl)]
      exact hpv
    rw [getVals_launch_eq_afterUdd t c _ (by decide) (by decide) (by decide) (by decide)
      (by decide) (by decide) (by decide) (by decide) (by decide),
      getVals_userDataDirPhase _ _ _ _ (by decide),
      getVals_extensionsPhase _ _ _ (by decide) (by decide)]
    exact hport2

/-- C10 witness: the theorem applied to `cfgUserDataOverride` — the caller's
`/custom` value comes first, then the temp-dir default, in one entry. -/
theorem c10_witness :
    countKey (launchArgsBuilder "/tmp" cfgUserDataOverride) "user-data-dir" = 1 ∧
    getVals (launchArgsBuilder "/tmp" cfgUserDataOverride) "user-data-dir" =
      some (["/custom"] ++ [(match cfgUserDataOverride.userDataDir with
        | some d => d
        | none => "/tmp" ++ "/chromiumoxide-runner")]) :=
  (fun h => ⟨h.1, h.2.1⟩)
    (c10_user_data_dir_appended "/tmp" cfgUserDataOverride ["/custom"] (by decide))

/-! ## Lemmas about the discovery race -/

theorem wsUrl_run (chunks : List (List Nat)) :
    ∀ (evs : List StreamEvent) (cap : List Nat),
      (∀ ch ∈ chunks, chunkContinuesB ch = true) →
      wsUrlFromOutput (chunks.map (fun ch => .readLine (.ok ch)) ++ evs) cap =
        wsUrlFromOutput evs (cap ++ chunks.flatten) := by
  induction chunks with
  | nil =>
    intro evs cap h
    simp
  | cons ch rest ih =>
    intro evs cap h
    have hc := h ch (List.mem_cons_self ch rest)
    rw [chunkContinuesB, Bool.and_eq_true] at hc
    obtain ⟨h1, h2⟩ := hc
    have hne : ¬(ch.length = 0) := by
      intro hz
      rw [List.length_eq_zero] at hz
      subst hz
      simp at h1
    cases hdec : utf8Decode ch with
    | none =>
      rw [hdec] at h2
      simp at h2
    | some line =>
      rw [hdec] at h2
      have hscan : scanLine line = none := Option.isNone_iff_eq_none.1 h2
      simp only [List.map_cons, List.cons_append]
      simp only [wsUrlFromOutput, if_neg hne, hdec, hscan]
      rw [ih evs (cap ++ ch) (fun ch2 hm => h ch2 (List.mem_cons_of_mem _ hm)),
        List.flatten_cons, ← List.append_assoc]

/-! ## Claim C3 -/

/-- C3: whenever a line read from the diagnostic stream contains
`"listening on "` followed by a value that starts with `"ws"` and contains
`"devtools/browser"`, the race returns success with exactly that value trimmed
of surrounding whitespace; and a line containing `"listening on "` whose value
fails either condition is not an error — the loop continues with the next
event. -/
theorem c3_listening_line (chunk : List Nat) (line before ws : List Char)
    (rest : List StreamEvent) (cap : List Nat)
    (hne : chunk ≠ [])
    (hdec : utf8Decode chunk = some line)
    (hsplit : rsplitOnce listeningPat line = some (before, ws))
    (hws : "ws".data.isPrefixOf ws = true)
    (hdt : containsSub "devtools/browser".data ws = true) :
    wsUrlFromOutput (.readLine (.ok chunk) :: rest) cap = some (.ok (trimChars ws)) ∧
    (∀ (chunk2 : List Nat) (line2 : List Char) (rest2 : List StreamEvent) (cap2 : List Nat),
      chunk2 ≠ [] → utf8Decode chunk2 = some line2 →
      containsSub listeningPat line2 = true → scanLine line2 = none →
      wsUrlFromOutput (.readLine (.ok chunk2) :: rest2) cap2 =
        wsUrlFromOutput rest2 (cap2 ++ chunk2)) := by
  constructor
  · have hlen : ¬(chunk.length = 0) := fun hz => hne (List.length_eq_zero.1 hz)
    have hscan : scanLine line = some (trimChars ws) := by
      unfold scanLine
      rw [hsplit]
      simp [hws, hdt]
    simp only [wsUrlFromOutput, if_neg hlen, hdec, hscan]
  · intro chunk2 line2 rest2 cap2 hne2 hdec2 hcont hscan2
    have hlen2 : ¬(chunk2.length = 0) := fun hz => hne2 (List.length_eq_zero.1 hz)
    simp only [wsUrlFromOutput, if_neg hlen2, hdec2, hscan2]

/-- C3 witness: the fake stream line
`"DevTools listening on ws://127.0.0.1:9222/devtools/browser/abc"` yields
exactly that trimmed URL, and an `http://` announcement line merely continues
the loop. -/
theorem c3_witness :
    wsUrlFromOutput [.readLine (.ok devtoolsChunk), .timeout] [] =
      some (.ok (trimChars "ws://127.0.0.1:9222/devtools/browser/abc\n".data)) ∧
    trimChars "ws://127.0.0.1:9222/devtools/browser/abc\n".data =
      "ws://127.0.0.1:9222/devtools/browser/abc".data ∧
    wsUrlFromOutput [.readLine (.ok httpChunk), .timeout] [] =
      wsUrlFromOutput [.timeout] ([] ++ httpChunk) :=
  (fun h => ⟨h.1, by decide,
    h.2 httpChunk "DevTools listening on http://127.0.0.1:9222/devtools/browser/abc\n".data
      [.timeout] [] (by decide) (by decide) (by decide) (by decide)⟩)
    (c3_listening_line devtoolsChunk
      "DevTools listening on ws://127.0.0.1:9222/devtools/browser/abc\n".data
      "DevTools ".data "ws://127.0.0.1:9222/devtools/browser/abc\n".data
      [.timeout] [] (by decide) (by decide) (by decide) (by decide) (by decide))

/-! ## Claim C5 -/

/-- C5: a zero-byte read (closed stream) before any timeout or exit signal
makes discovery fail immediately with an unexpected end-of-stream I/O error
carrying every diagnostic byte captured so far — it neither hangs nor ignores
the closed stream. -/
theorem c5_eof_error (chunks : List (List Nat)) (rest : List StreamEvent) (cap : List Nat)
    (h : ∀ ch ∈ chunks, chunkContinuesB ch = true) :
    wsUrlFromOutput (chunks.map (fun ch => .readLine (.ok ch)) ++
        .readLine (.ok []) :: rest) cap =
      some (.error (.launchIo .unexpectedEof (cap ++ chunks.flatten))) := by
  rw [wsUrl_run chunks (.readLine (.ok []) :: rest) cap h]
  rfl

/-- C5 witness: after one continuing junk line, a zero-byte read returns the
end-of-stream error carrying the junk bytes. -/
theorem c5_witness :
    wsUrlFromOutput ([junkChunk].map (fun ch => .readLine (.ok ch)) ++
        .readLine (.ok []) :: [StreamEvent.timeout]) [] =
      some (.error (.launchIo .unexpectedEof ([] ++ [junkChunk].flatten))) :=
  c5_eof_error [junkChunk] [StreamEvent.timeout] [] (by decide)

/-! ## Claim C6 -/

/-- C6: an observed child exit during discovery fails with a launch-exit error
carrying the exit status and the captured diagnostic bytes; an I/O error while
awaiting the exit is reported as a launch I/O error instead — a distinct
error constructor. -/
theorem c6_exit_outcomes (chunks chunks2 : List (List Nat)) (st : Int) (e : IoErrorKind)
    (rest rest2 : List StreamEvent) (cap cap2 : List Nat)
    (h : ∀ ch ∈ chunks, chunkContinuesB ch = true)
    (h2 : ∀ ch ∈ chunks2, chunkContinuesB ch = true) :
    wsUrlFromOutput (chunks.map (fun ch => .readLine (.ok ch)) ++
        .exitStatus (.ok st) :: rest) cap =
      some (.error (.launchExit st (cap ++ chunks.flatten))) ∧
    wsUrlFromOutput (chunks2.map (fun ch => .readLine (.ok ch)) ++
        .exitStatus (.error e) :: rest2) cap2 =
      some (.error (.launchIo e (cap2 ++ chunks2.flatten))) ∧
    (∀ (kind : IoErrorKind) (st3 : Int) (bs : List Nat),
      (CdpError.launchIo kind bs) ≠ CdpError.launchExit st3 bs) := by
  refine ⟨?_, ?_, ?_⟩
  · rw [wsUrl_run chunks (.exitStatus (.ok st) :: rest) cap h]
    rfl
  · rw [wsUrl_run chunks2 (.exitStatus (.error e) :: rest2) cap2 h2]
    rfl
  · intro kind st3 bs hx
    exact CdpError.noConfusion hx

/-- C6 witness: after one junk line, an exit with status 1 yields the
launch-exit error with the captured bytes; a failed exit await yields the
distinct launch I/O error. -/
theorem c6_witness :
    wsUrlFromOutput ([junkChunk].map (fun ch => .readLine (.ok ch)) ++
        .exitStatus (.ok 1) :: [StreamEvent.timeout]) [] =
      some (.error (.launchExit 1 ([] ++ [junkChunk].flatten))) ∧
    wsUrlFromOutput (([] : List (List Nat)).map (fun ch => .readLine (.ok ch)) ++
        .exitStatus (.error (.osError 5)) :: [StreamEvent.timeout]) [] =
      some (.error (.launchIo (.osError 5) ([] ++ ([] : List (List Nat)).flatten))) :=
  (fun h => ⟨h.1, h.2.1⟩)
    (c6_exit_outcomes [junkChunk] [] 1 (.osError 5) [StreamEvent.timeout] [StreamEvent.timeout]
      [] [] (by decide) (by decide))

/-! ## Claim C1 -/

/-- C1: whenever the post-spawn initialization fails with any error, the
returned error is exactly that error paired with a fully reaped child: a child
that had already exited is merely collected, a still-running child is killed
and then waited on, so a failed launch never leaves a zombie or orphan. -/
theorem c1_failed_launch_reaps_child (ks : Int) (e : CdpError) (c : ProcState) :
    launchFinish ks (.error e) c = .error (e, cleanupChild ks c) ∧
    isReaped (cleanupChild ks c) = true := by
  refine ⟨rfl, ?_⟩
  cases c <;> rfl

/-! ## Claim C7 -/

theorem validateCookies_error_of_failing {E : Type} (validate : String → Except E Unit)
    (cookies : List CookieParam)
    (h : ∃ c ∈ cookies, ∃ u, c.url = some u ∧ ∃ e, validate u = .error e) :
    ∃ c ∈ cookies, ∃ u e, c.url = some u ∧ validate u = .error e ∧
      validateCookies validate cookies = .error e := by
  induction cookies with
  | nil =>
    obtain ⟨c, hc, _⟩ := h
    exact absurd hc (List.not_mem_nil c)
  | cons c0 rest ih =>
    cases hurl : c0.url with
    | some u0 =>
      cases hval : validate u0 with
      | error e0 =>
        refine ⟨c0, List.mem_cons_self c0 rest, u0, e0, hurl, hval, ?_⟩
        unfold validateCookies
        simp only [hurl, hval]
      | ok _ =>
        obtain ⟨c, hc, u, hu, e, he⟩ := h
        rcases List.mem_cons.1 hc with hceq | hcr
        · subst hceq
          rw [hurl] at hu
          obtain rfl : u0 = u := Option.some.injEq _ _ ▸ hu
          rw [hval] at he
          exact absurd he (fun hx => Except.noConfusion hx)
        · obtain ⟨c2, hc2, u2, e2, hu2, he2, hrec⟩ := ih ⟨c, hcr, u, hu, e, he⟩
          refine ⟨c2, List.mem_cons_of_mem c0 hc2, u2, e2, hu2, he2, ?_⟩
          unfold validateCookies
          simp only [hurl, hval]
          exact hrec
    | none =>
      obtain ⟨c, hc, u, hu, e, he⟩ := h
      rcases List.mem_cons.1 hc with hceq | hcr
      · subst hceq
        rw [hurl] at hu
        exact absurd hu (fun hx => Option.noConfusion hx)
      · obtain ⟨c2, hc2, u2, e2, hu2, he2, hrec⟩ := ih ⟨c, hcr, u, hu, e, he⟩
        refine ⟨c2, List.mem_cons_of_mem c0 hc2, u2, e2, hu2, he2, ?_⟩
        unfold validateCookies
        simp only [hurl]
        exact hrec

/-- C7: if any cookie in the batch carries a URL that the validator rejects,
`set_cookies` returns a validation error of one of the offending cookies and
dispatches no command at all — for every command list, the call does not
succeed with it; the browser state is untouched on the error path. -/
theorem c7_set_cookies_validates_first {E : Type} (validate : String → Except E Unit)
    (cookies : List CookieParam)
    (h : ∃ c ∈ cookies, ∃ u, c.url = some u ∧ ∃ e, validate u = .error e) :
    ∃ c ∈ cookies, ∃ u e, c.url = some u ∧ validate u = .error e ∧
      setCookies validate cookies = .error e ∧
      ∀ cmds : List BrowserCommand, setCookies validate cookies ≠ .ok cmds := by
  obtain ⟨c, hc, u, e, hu, hv, hval⟩ := validateCookies_error_of_failing validate cookies h
  refine ⟨c, hc, u, e, hu, hv, ?_, ?_⟩
  · unfold setCookies
    rw [hval]
  · intro cmds hx
    unfold setCookies at hx
    rw [hval] at hx
    exact Except.noConfusion hx

/-- C7 witness: on `cookiesStub` with `validateStub` the call rejects the batch
(the concrete outcome is the error `7` of the second cookie) and dispatches
nothing. -/
theorem c7_witness :
    setCookies validateStub cookiesStub = .error 7 ∧
    (∃ c ∈ cookiesStub, ∃ u e, c.url = some u ∧ validateStub u = .error e ∧
      setCookies validateStub cookiesStub = .error e ∧
      ∀ cmds : List BrowserCommand, setCookies validateStub cookiesStub ≠ .ok cmds) :=
  ⟨by decide,
    c7_set_cookies_validates_first validateStub cookiesStub
      ⟨⟨"bad", "2", some "not-a-url"⟩, by decide, "not-a-url", rfl, 7, by decide⟩⟩

/-! ## Claim C8 -/

theorem isPrefixOf_append_self (pat r : List Char) : pat.isPrefixOf (pat ++ r) = true := by
  induction pat with
  | nil => simp [List.isPrefixOf]
  | cons c rest ih => simp [List.isPrefixOf, List.cons_append, ih]

theorem containsSub_of_here (pat s : List Char) (h : pat.isPrefixOf s = true) :
    containsSub pat s = true := by
  cases s with
  | nil =>
    cases pat with
    | nil => rfl
    | cons c r => simp [List.isPrefixOf] at h
  | cons c rest => simp [containsSub, h]

theorem containsSub_cons (pat : List Char) (c : Char) (s : List Char)
    (h : containsSub pat s = true) : containsSub pat (c :: s) = true := by
  simp [containsSub, h]

theorem containsSub_append_left (pat l s : List Char) (h : containsSub pat s = true) :
    containsSub pat (l ++ s) = true := by
  induction l with
  | nil => simpa
  | cons c rest ih => simpa [List.cons_append] using containsSub_cons pat c (rest ++ s) ih

/-- C8: every profile whose OS is the Windows preset renders a user agent
containing both the literal Windows platform token and the configured Chrome
version number, whatever the rest of the builder chain set. -/
theorem c8_windows_user_agent (p : ChaserProfile) (h : p.os = Os.Windows) :
    strContains p.user_agent "Windows NT 10.0; Win64; x64" = true ∧
    strContains p.user_agent (toString p.chrome_version) = true := by
  unfold strContains
  simp only [ChaserProfile.user_agent, h, String.data_append, List.append_assoc]
  constructor
  · exact containsSub_append_left _ _ _
      (containsSub_of_here _ _ (isPrefixOf_append_self _ _))
  · exact containsSub_append_left _ _ _ (containsSub_append_left _ _ _
      (containsSub_append_left _ _ _
        (containsSub_of_here _ _ (isPrefixOf_append_self _ _))))

/-- C8 witness: the Windows preset with Chrome version 130 contains the
platform token and the version string. -/
theorem c8_witness :
    strContains ((ChaserProfile.windowsBuilder.withChromeVersion 130).build).user_agent
      "Windows NT 10.0; Win64; x64" = true ∧
    strContains ((ChaserProfile.windowsBuilder.withChromeVersion 130).build).user_agent
      (toString ((ChaserProfile.windowsBuilder.withChromeVersion 130).build).chrome_version) =
      true :=
  c8_windows_user_agent _ rfl

/-! ## Claim C9 -/

/-- C9: changing only the `gpu` builder setting never changes the platform
string the built profile derives, while the WebGL renderer strings of the GPU
presets are pairwise distinct — two presets agree on `renderer` exactly when
they are the same preset. -/
theorem c9_gpu_platform_independence :
    (∀ (b : ChaserProfileBuilder) (g1 g2 : Gpu),
      ((b.withGpu g1).build).os.platform = ((b.withGpu g2).build).os.platform) ∧
    (∀ g1 g2 : Gpu, g1 = g2 ↔ Gpu.renderer g1 = Gpu.renderer g2) := by
  constructor
  · intro b g1 g2
    rfl
  · intro g1 g2
    constructor
    · intro he
      rw [he]
    · intro hr
      cases g1 <;> cases g2 <;> first
        | rfl
        | exact absurd hr (by decide)

/-- C9 witness: two Windows-preset builders differing only in GPU share the
platform string, and those two distinct presets have distinct renderers. -/
theorem c9_witness :
    ((ChaserProfile.windowsBuilder.withGpu .NvidiaRTX4080).build).os.platform =
      ((ChaserProfile.windowsBuilder.withGpu .IntelUHD630).build).os.platform ∧
    (Gpu.NvidiaRTX4080 = Gpu.IntelUHD630 ↔
      Gpu.renderer .NvidiaRTX4080 = Gpu.renderer .IntelUHD630) :=
  (fun h => ⟨h.1 ChaserProfile.windowsBuilder .NvidiaRTX4080 .IntelUHD630,
    h.2 .NvidiaRTX4080 .IntelUHD630⟩) c9_gpu_platform_independence
